import Mathlib

/-!
Verification of the preset preview/commit/cancel coordination logic of
`pcsx2/gui/Dialogs/SysConfigDialog.cpp` (the `Dialogs::SysConfigDialog`
class), as a shallow embedding.

The dialog logic itself (`UpdateGuiForPreset`, `Apply`, `Cancel`, the
widget handlers and `AddPresetsControl`) is translated directly from the
source file.  Its external collaborators — `AppConfig` (g_Conf), the
configuration panels, and the main frame's menu surface — are declared
elsewhere in the application; their behaviour is modelled from the design
document, with each such definition marked `Modelled from the spec:` in
its doc comment.  The open-ended set of configuration fields other than
`EnablePresets` / `PresetIndex` is abstracted into a single field
`otherFields`, since the preset table's contents are external static data.
-/

/-- Modelled from the spec: ConfigurationStore (the process-wide `g_Conf`
`AppConfig` record, declared outside this source file).  It holds
`presetIndex`, `presetsEnabled`, and an open-ended set of other settings
fields, abstracted here into the single field `otherFields`. -/
structure AppConfig where
  EnablePresets : Bool
  PresetIndex : Int
  otherFields : Nat
deriving Repr, DecidableEq

/-- Modelled from the spec: `maxPresetIndex` is a compile-time/static
constant of the preset table (`AppConfig::GetMaxPresetIndex()`, declared
outside this source file; the dialog's tooltip enumerates six preset
levels, indices 0–5). -/
def AppConfig.GetMaxPresetIndex : Int := 5

/-- Modelled from the spec: the external static preset table — each preset
index maps to one fixed bundle of field values (`applyPresetValues`).  The
bundle contents are opaque external data; only determinism and totality
matter to the coordinator. -/
def presetBundle (i : Int) : Nat := 2 * i.toNat + 1

/-- Modelled from the spec: `AppConfig::IsOkApplyPreset(n, ...)`
(declared outside this source file) — a deterministic, total function
applying preset `n`'s associated field values onto the configuration.
Per the source comment at `SysConfigDialog.cpp:62` it "always
applies/enabled", i.e. it also sets `EnablePresets` to true and records
the preset index. -/
def AppConfig.IsOkApplyPreset (c : AppConfig) (n : Int) (_fromFile : Bool) : AppConfig :=
  { c with PresetIndex := n, EnablePresets := true, otherFields := presetBundle n }

/-- Modelled from the spec: `AppConfig::APPLY_FLAG_MANUALLY_PROPAGATE`
("propagate immediately" semantics of a preview broadcast). -/
def APPLY_FLAG_MANUALLY_PROPAGATE : Nat := 1

/-- Modelled from the spec: `AppConfig::APPLY_FLAG_FROM_PRESET`
("from preset" semantics of a preview broadcast). -/
def APPLY_FLAG_FROM_PRESET : Nat := 2

/-- Modelled from the spec: a configuration-consuming panel
(`BaseApplicableConfigPanel`, declared outside this source file).
`IsSpecificConfig` is the capability query "is this panel preset-aware?";
`lastApplied` records the configuration snapshot and flags last delivered
to the panel via `ApplyConfigToGui`, if any. -/
structure Panel where
  IsSpecificConfig : Bool
  lastApplied : Option (AppConfig × Nat)
deriving Repr, DecidableEq

/-- Modelled from the spec: `applyPreview(snapshot, flags)` on a
preset-aware panel (`BaseApplicableConfigPanel_SpecificConfig::
ApplyConfigToGui`, declared outside this source file): the panel's GUI is
reloaded from the delivered snapshot. -/
def Panel.ApplyConfigToGui (p : Panel) (c : AppConfig) (flags : Nat) : Panel :=
  { p with lastApplied := some (c, flags) }

/-- Modelled from the spec: the main-menu surface (`MainEmuFrame`,
declared outside this source file).  `lastApplied` records the snapshot
and flags last broadcast to it; `pendingPresetGoverned` is the
menu-owned pending preset state — state that parallels, but is distinct
from, the dialog's widget state: the preset-governed menu items (e.g.
patches enablement), tracked by the `otherFields` abstraction. -/
structure MainFrame where
  lastApplied : Option (AppConfig × Nat)
  pendingPresetGoverned : Nat
deriving Repr, DecidableEq

/-- Modelled from the spec: `MainEmuFrame::ApplyConfigToGui(cfg, flags)`
(declared outside this source file) — the menus reflect the delivered
pending values, so the menu-owned pending preset state tracks the
snapshot's preset-governed fields. -/
def MainFrame.ApplyConfigToGui (f : MainFrame) (c : AppConfig) (flags : Nat) : MainFrame :=
  { f with lastApplied := some (c, flags), pendingPresetGoverned := c.otherFields }

/-- Modelled from the spec: `MainEmuFrame::CommitPreset_noTrigger()`
(declared outside this source file) — `commitPendingPreset()`: the
main-menu surface independently persists its own pending preset state
into ConfigurationStore (without triggering a settings-applied event). -/
def MainFrame.CommitPreset_noTrigger (f : MainFrame) (conf : AppConfig) : AppConfig :=
  { conf with otherFields := f.pendingPresetGoverned }

/-- The state touched by `Dialogs::SysConfigDialog`: the shared store
`g_Conf`, the dialog's page container `m_listbook` (whose pages are the
registered configuration-consuming panels; `none` models a null
`m_listbook`), the main frame pointer (`none` models a null
`GetMainFramePtr()`), and the two preset widgets — the slider's current
value and the checkbox's checked state. -/
structure SysState where
  g_Conf : AppConfig
  m_listbook : Option (List Panel)
  mainFrame : Option MainFrame
  m_slider_presets : Int
  m_check_presets : Bool
deriving Repr, DecidableEq

/-- The speculative snapshot `UpdateGuiForPreset` broadcasts to the
preset-aware panels (`SysConfigDialog.cpp:60-62`): a value-copy of
`g_Conf`, with preset `presetIndex`'s field bundle applied via
`IsOkApplyPreset`, and the enablement flag then overwritten with the
caller-supplied `presetsEnabled`. -/
def panelSnapshot (conf : AppConfig) (presetIndex : Int) (presetsEnabled : Bool) : AppConfig :=
  { conf.IsOkApplyPreset presetIndex false with EnablePresets := presetsEnabled }

/-- The second, distinct snapshot `UpdateGuiForPreset` broadcasts to the
main-menu surface (`SysConfigDialog.cpp:95-96`): same field values as the
panel snapshot, but with `EnablePresets` forced to `true`. -/
def menuSnapshot (conf : AppConfig) (presetIndex : Int) (presetsEnabled : Bool) : AppConfig :=
  { panelSnapshot conf presetIndex presetsEnabled with EnablePresets := true }

/-- `Dialogs::SysConfigDialog::UpdateGuiForPreset(presetIndex,
presetsEnabled)` (`SysConfigDialog.cpp:53-103`): if `m_listbook` is null,
return immediately; otherwise build the speculative snapshot (copy of
`g_Conf`, preset applied, enablement overwritten), deliver it to every
page whose `IsSpecificConfig()` holds, then force the snapshot's
`EnablePresets` to true and deliver that to the main frame when one
exists.  (The trailing restore of `EnablePresets` at line 101 acts on the
discarded local and is a no-op.)  The loop bound `m_labels.GetCount()`
equals the page count, since `AddPage` appends a label per page. -/
def SysConfigDialog.UpdateGuiForPreset (s : SysState) (presetIndex : Int)
    (presetsEnabled : Bool) : SysState :=
  match s.m_listbook with
  | none => s
  | some pages =>
    let preset := panelSnapshot s.g_Conf presetIndex presetsEnabled
    let pages := pages.map (fun p =>
      if p.IsSpecificConfig then
        p.ApplyConfigToGui preset (APPLY_FLAG_FROM_PRESET ||| APPLY_FLAG_MANUALLY_PROPAGATE)
      else p)
    let preset := { preset with EnablePresets := true }
    let mf := s.mainFrame.map (fun f =>
      f.ApplyConfigToGui preset (APPLY_FLAG_FROM_PRESET ||| APPLY_FLAG_MANUALLY_PROPAGATE))
    { s with m_listbook := some pages, mainFrame := mf }

/-- `Dialogs::SysConfigDialog::Presets_Toggled` /
`Dialogs::SysConfigDialog::Preset_Scroll` (`SysConfigDialog.cpp:150-170`):
both bound widget handlers call `UpdateGuiForPreset` with the widgets'
current values (the label/enable updates they also perform are pure
display).  -/
def SysConfigDialog.Presets_Toggled (s : SysState) : SysState :=
  SysConfigDialog.UpdateGuiForPreset s s.m_slider_presets s.m_check_presets

/-- The spec's `previewPreset(i, e)`: the user moves the slider to `i` and
sets the checkbox to `e`, and the bound handler (`Presets_Toggled` /
`Preset_Scroll`) fires, calling `UpdateGuiForPreset` with the widget
values. -/
def SysConfigDialog.previewPreset (s : SysState) (i : Int) (e : Bool) : SysState :=
  SysConfigDialog.Presets_Toggled { s with m_slider_presets := i, m_check_presets := e }

/-- `Dialogs::SysConfigDialog::Apply` (`SysConfigDialog.cpp:175-183`), the
spec's `commit()`: write the dialog's widget values into `g_Conf`
(`EnablePresets` from the checkbox, `PresetIndex` from the slider), then,
when a main frame exists, have the menu system commit its own pending
preset state via `CommitPreset_noTrigger`. -/
def SysConfigDialog.Apply (s : SysState) : SysState :=
  let conf := { s.g_Conf with
    EnablePresets := s.m_check_presets, PresetIndex := s.m_slider_presets }
  let conf := match s.mainFrame with
    | none => conf
    | some f => f.CommitPreset_noTrigger conf
  { s with g_Conf := conf }

/-- `Dialogs::SysConfigDialog::Cancel` (`SysConfigDialog.cpp:188-192`),
the spec's `cancel()`: when a main frame exists, re-broadcast the current
`*g_Conf` (as-is) to it with the preset apply flags; the store is never
written. -/
def SysConfigDialog.Cancel (s : SysState) : SysState :=
  { s with mainFrame := s.mainFrame.map (fun f =>
      f.ApplyConfigToGui s.g_Conf (APPLY_FLAG_FROM_PRESET ||| APPLY_FLAG_MANUALLY_PROPAGATE)) }

/-- `Dialogs::SysConfigDialog::AddPresetsControl`
(`SysConfigDialog.cpp:105-146`), the widget-relevant part: the slider is
constructed with value `g_Conf->PresetIndex` and range
`[0, AppConfig::GetMaxPresetIndex()]`, and the checkbox with
`g_Conf->EnablePresets`; the tooltip/label/sizer work is pure display. -/
def SysConfigDialog.AddPresetsControl (s : SysState) : SysState :=
  { s with m_slider_presets := s.g_Conf.PresetIndex,
           m_check_presets := s.g_Conf.EnablePresets }

/-! ### Shared helper lemmas and concrete example states -/

/-- The snapshot and flags last delivered to the main-menu surface, if
any: the observable of a menu broadcast. -/
def menuReceived (s : SysState) : Option (AppConfig × Nat) :=
  s.mainFrame.bind (fun f => f.lastApplied)

theorem SysConfigDialog.UpdateGuiForPreset_some (s : SysState) (pages : List Panel)
    (i : Int) (e : Bool) (hl : s.m_listbook = some pages) :
    SysConfigDialog.UpdateGuiForPreset s i e =
      { s with
        m_listbook := some (pages.map (fun p =>
          if p.IsSpecificConfig then
            p.ApplyConfigToGui (panelSnapshot s.g_Conf i e)
              (APPLY_FLAG_FROM_PRESET ||| APPLY_FLAG_MANUALLY_PROPAGATE)
          else p)),
        mainFrame := s.mainFrame.map (fun f =>
          f.ApplyConfigToGui (menuSnapshot s.g_Conf i e)
            (APPLY_FLAG_FROM_PRESET ||| APPLY_FLAG_MANUALLY_PROPAGATE)) } := by
  unfold SysConfigDialog.UpdateGuiForPreset
  rw [hl]
  rfl

theorem SysConfigDialog.UpdateGuiForPreset_g_Conf (s : SysState) (i : Int) (e : Bool) :
    (SysConfigDialog.UpdateGuiForPreset s i e).g_Conf = s.g_Conf := by
  unfold SysConfigDialog.UpdateGuiForPreset
  cases s.m_listbook <;> rfl

theorem SysConfigDialog.Apply_EnablePresets (s : SysState) :
    (SysConfigDialog.Apply s).g_Conf.EnablePresets = s.m_check_presets := by
  unfold SysConfigDialog.Apply
  cases s.mainFrame <;> rfl

theorem SysConfigDialog.Apply_PresetIndex (s : SysState) :
    (SysConfigDialog.Apply s).g_Conf.PresetIndex = s.m_slider_presets := by
  unfold SysConfigDialog.Apply
  cases s.mainFrame <;> rfl

theorem SysConfigDialog.previewPreset_widgets (s : SysState) (i : Int) (e : Bool) :
    (SysConfigDialog.previewPreset s i e).m_slider_presets = i
    ∧ (SysConfigDialog.previewPreset s i e).m_check_presets = e := by
  unfold SysConfigDialog.previewPreset SysConfigDialog.Presets_Toggled
    SysConfigDialog.UpdateGuiForPreset
  cases s.m_listbook <;> exact ⟨rfl, rfl⟩

/-- Example store: presets enabled, preset index 1 (the spec's §8 scenario
starting point). -/
def confA : AppConfig := { EnablePresets := true, PresetIndex := 1, otherFields := 0 }

/-- Example store with presets disabled. -/
def confB : AppConfig := { EnablePresets := false, PresetIndex := 1, otherFields := 0 }

/-- Example main frame whose pending preset-governed state agrees with
`confA`. -/
def frameA : MainFrame := { lastApplied := none, pendingPresetGoverned := 0 }

/-- Example main frame whose pending preset-governed state differs from
`confA`'s fields. -/
def frameB : MainFrame := { lastApplied := none, pendingPresetGoverned := 7 }

/-- Example pages: one preset-aware panel and one preset-unaware panel. -/
def pagesA : List Panel :=
  [{ IsSpecificConfig := true, lastApplied := none },
   { IsSpecificConfig := false, lastApplied := none }]

/-- Example dialog state over `confA`, with widgets in sync with the store. -/
def stateA : SysState :=
  { g_Conf := confA, m_listbook := some pagesA, mainFrame := some frameA,
    m_slider_presets := 1, m_check_presets := true }

/-- Like `stateA` but the store has presets disabled. -/
def stateB : SysState := { stateA with g_Conf := confB }

/-- Like `stateA` but the main frame holds divergent pending preset state. -/
def stateC : SysState := { stateA with mainFrame := some frameB }

/-- Like `stateA` but with no main frame. -/
def stateD : SysState := { stateA with mainFrame := none }

/-- Like `stateA` but with both collaborators missing. -/
def stateE : SysState := { stateA with m_listbook := none, mainFrame := none }

/-! ### Claim theorems -/

/-- C1: for every valid preset index `i ∈ [0, maxPresetIndex]` and every
boolean `e`, `previewPreset i e` (`UpdateGuiForPreset`, as fired by the
widget handlers) and `cancel()` (`Cancel`) leave the ConfigurationStore
`g_Conf` completely unchanged; among the three operations only `Apply`
writes the store. -/
theorem preview_cancel_preserve_store (s : SysState) (i : Int) (e : Bool)
    (hlo : 0 ≤ i) (hhi : i ≤ AppConfig.GetMaxPresetIndex) :
    (SysConfigDialog.previewPreset s i e).g_Conf = s.g_Conf
    ∧ (SysConfigDialog.UpdateGuiForPreset s i e).g_Conf = s.g_Conf
    ∧ (SysConfigDialog.Cancel s).g_Conf = s.g_Conf :=
  ⟨SysConfigDialog.UpdateGuiForPreset_g_Conf _ _ _,
   SysConfigDialog.UpdateGuiForPreset_g_Conf _ _ _, rfl⟩

/-- Witness for C1 at a concrete state and the valid index 3. -/
theorem preview_cancel_preserve_store_witness :
    (SysConfigDialog.previewPreset stateA 3 false).g_Conf = stateA.g_Conf
    ∧ (SysConfigDialog.UpdateGuiForPreset stateA 3 false).g_Conf = stateA.g_Conf
    ∧ (SysConfigDialog.Cancel stateA).g_Conf = stateA.g_Conf :=
  preview_cancel_preserve_store stateA 3 false (by decide) (by decide)

/-- C3: the snapshot `UpdateGuiForPreset i e` broadcasts to the main-menu
surface has `EnablePresets = true` regardless of the caller-supplied `e`,
while carrying the same remaining field values (`PresetIndex`,
`otherFields`) as the panel-broadcast snapshot. -/
theorem preview_menu_enable_forced (s : SysState) (pages : List Panel) (f : MainFrame)
    (i : Int) (e : Bool) (hl : s.m_listbook = some pages) (hf : s.mainFrame = some f) :
    (SysConfigDialog.UpdateGuiForPreset s i e).mainFrame
      = some (f.ApplyConfigToGui (menuSnapshot s.g_Conf i e)
          (APPLY_FLAG_FROM_PRESET ||| APPLY_FLAG_MANUALLY_PROPAGATE))
    ∧ (menuSnapshot s.g_Conf i e).EnablePresets = true
    ∧ (menuSnapshot s.g_Conf i e).PresetIndex = (panelSnapshot s.g_Conf i e).PresetIndex
    ∧ (menuSnapshot s.g_Conf i e).otherFields = (panelSnapshot s.g_Conf i e).otherFields := by
  rw [SysConfigDialog.UpdateGuiForPreset_some s pages i e hl]
  simp [hf, menuSnapshot]

/-- Witness for C3 at a concrete state with `e = false`. -/
theorem preview_menu_enable_forced_witness :
    (SysConfigDialog.UpdateGuiForPreset stateA 3 false).mainFrame
      = some (frameA.ApplyConfigToGui (menuSnapshot stateA.g_Conf 3 false)
          (APPLY_FLAG_FROM_PRESET ||| APPLY_FLAG_MANUALLY_PROPAGATE))
    ∧ (menuSnapshot stateA.g_Conf 3 false).EnablePresets = true
    ∧ (menuSnapshot stateA.g_Conf 3 false).PresetIndex
        = (panelSnapshot stateA.g_Conf 3 false).PresetIndex
    ∧ (menuSnapshot stateA.g_Conf 3 false).otherFields
        = (panelSnapshot stateA.g_Conf 3 false).otherFields :=
  preview_menu_enable_forced stateA pagesA frameA 3 false rfl rfl

/-- C5: the snapshot `UpdateGuiForPreset i e` delivers to the
preset-aware pages is `panelSnapshot g_Conf i e` — the value-copy of the
store with `IsOkApplyPreset i` applied and the enablement flag then
overwritten with `e` — so it has `PresetIndex = i`, `EnablePresets = e`,
and preset `i`'s field bundle. -/
theorem preview_panel_snapshot (s : SysState) (pages : List Panel) (i : Int) (e : Bool)
    (hl : s.m_listbook = some pages) :
    (panelSnapshot s.g_Conf i e).PresetIndex = i
    ∧ (panelSnapshot s.g_Conf i e).EnablePresets = e
    ∧ (panelSnapshot s.g_Conf i e).otherFields = presetBundle i
    ∧ (SysConfigDialog.UpdateGuiForPreset s i e).m_listbook
        = some (pages.map (fun p =>
            if p.IsSpecificConfig then
              p.ApplyConfigToGui (panelSnapshot s.g_Conf i e)
                (APPLY_FLAG_FROM_PRESET ||| APPLY_FLAG_MANUALLY_PROPAGATE)
            else p)) := by
  refine ⟨rfl, rfl, rfl, ?_⟩
  rw [SysConfigDialog.UpdateGuiForPreset_some s pages i e hl]

/-- Witness for C5 at the spec's §8 scenario: store `(1, true)`, call with
`(3, false)`. -/
theorem preview_panel_snapshot_witness :
    (panelSnapshot stateA.g_Conf 3 false).PresetIndex = 3
    ∧ (panelSnapshot stateA.g_Conf 3 false).EnablePresets = false
    ∧ (panelSnapshot stateA.g_Conf 3 false).otherFields = presetBundle 3
    ∧ (SysConfigDialog.UpdateGuiForPreset stateA 3 false).m_listbook
        = some (pagesA.map (fun p =>
            if p.IsSpecificConfig then
              p.ApplyConfigToGui (panelSnapshot stateA.g_Conf 3 false)
                (APPLY_FLAG_FROM_PRESET ||| APPLY_FLAG_MANUALLY_PROPAGATE)
            else p)) :=
  preview_panel_snapshot stateA pagesA 3 false rfl

/-- C6: during `UpdateGuiForPreset`, the page at each position `k`
receives the snapshot (its `lastApplied` is set via `ApplyConfigToGui`)
if and only if it declares `IsSpecificConfig`; a page that does not opt
in is left exactly as it was. -/
theorem preview_capability_gated (s : SysState) (pages : List Panel) (i : Int) (e : Bool)
    (k : Nat) (hl : s.m_listbook = some pages) (hk : k < pages.length) :
    ∃ hk2 : k < ((SysConfigDialog.UpdateGuiForPreset s i e).m_listbook.getD []).length,
      ((SysConfigDialog.UpdateGuiForPreset s i e).m_listbook.getD []).get ⟨k, hk2⟩
        = if (pages.get ⟨k, hk⟩).IsSpecificConfig then
            (pages.get ⟨k, hk⟩).ApplyConfigToGui (panelSnapshot s.g_Conf i e)
              (APPLY_FLAG_FROM_PRESET ||| APPLY_FLAG_MANUALLY_PROPAGATE)
          else pages.get ⟨k, hk⟩ := by
  rw [SysConfigDialog.UpdateGuiForPreset_some s pages i e hl]
  refine ⟨by simpa using hk, ?_⟩
  simp [List.get_eq_getElem, List.getElem_map]

/-- Witness for C6 at a concrete state: position 0 is preset-aware and
receives the snapshot; position 1 is not and is untouched. -/
theorem preview_capability_gated_witness :
    (∃ hk2 : 0 < ((SysConfigDialog.UpdateGuiForPreset stateA 3 false).m_listbook.getD []).length,
      ((SysConfigDialog.UpdateGuiForPreset stateA 3 false).m_listbook.getD []).get ⟨0, hk2⟩
        = if (pagesA.get ⟨0, by decide⟩).IsSpecificConfig then
            (pagesA.get ⟨0, by decide⟩).ApplyConfigToGui (panelSnapshot stateA.g_Conf 3 false)
              (APPLY_FLAG_FROM_PRESET ||| APPLY_FLAG_MANUALLY_PROPAGATE)
          else pagesA.get ⟨0, by decide⟩)
    ∧ (∃ hk2 : 1 < ((SysConfigDialog.UpdateGuiForPreset stateA 3 false).m_listbook.getD []).length,
      ((SysConfigDialog.UpdateGuiForPreset stateA 3 false).m_listbook.getD []).get ⟨1, hk2⟩
        = if (pagesA.get ⟨1, by decide⟩).IsSpecificConfig then
            (pagesA.get ⟨1, by decide⟩).ApplyConfigToGui (panelSnapshot stateA.g_Conf 3 false)
              (APPLY_FLAG_FROM_PRESET ||| APPLY_FLAG_MANUALLY_PROPAGATE)
          else pagesA.get ⟨1, by decide⟩) :=
  ⟨preview_capability_gated stateA pagesA 3 false 0 rfl (by decide),
   preview_capability_gated stateA pagesA 3 false 1 rfl (by decide)⟩

/-- C2: after `Apply` (commit), the store's `PresetIndex` and
`EnablePresets` equal the last `(i, e)` passed to `previewPreset`
(`Apply` reads the widgets, which every preview leaves at its own
arguments); if no preview ever ran, the widgets still hold the values
`AddPresetsControl` loaded from the store, so the store's two fields keep
their original values; and when a main frame exists, `Apply` triggers it
to persist its own pending preset state into the store. -/
theorem apply_reads_last_preview (s : SysState) (i : Int) (e : Bool) :
    (SysConfigDialog.Apply (SysConfigDialog.previewPreset s i e)).g_Conf.PresetIndex = i
    ∧ (SysConfigDialog.Apply (SysConfigDialog.previewPreset s i e)).g_Conf.EnablePresets = e
    ∧ (s.m_slider_presets = s.g_Conf.PresetIndex → s.m_check_presets = s.g_Conf.EnablePresets →
        (SysConfigDialog.Apply s).g_Conf.PresetIndex = s.g_Conf.PresetIndex
        ∧ (SysConfigDialog.Apply s).g_Conf.EnablePresets = s.g_Conf.EnablePresets)
    ∧ (∀ f, s.mainFrame = some f →
        (SysConfigDialog.Apply s).g_Conf.otherFields = f.pendingPresetGoverned) := by
  refine ⟨?_, ?_, fun h1 h2 => ⟨?_, ?_⟩, fun f hf => ?_⟩
  · rw [SysConfigDialog.Apply_PresetIndex,
      (SysConfigDialog.previewPreset_widgets s i e).1]
  · rw [SysConfigDialog.Apply_EnablePresets,
      (SysConfigDialog.previewPreset_widgets s i e).2]
  · rw [SysConfigDialog.Apply_PresetIndex, h1]
  · rw [SysConfigDialog.Apply_EnablePresets, h2]
  · unfold SysConfigDialog.Apply
    rw [hf]
    rfl

/-- Witness for C2 at the spec's §8 scenario: store `(1, true)` with
widgets in sync, preview `(3, false)`, then commit. -/
theorem apply_reads_last_preview_witness :
    ((SysConfigDialog.Apply (SysConfigDialog.previewPreset stateA 3 false)).g_Conf.PresetIndex = 3)
    ∧ ((SysConfigDialog.Apply (SysConfigDialog.previewPreset stateA 3 false)).g_Conf.EnablePresets
        = false)
    ∧ ((SysConfigDialog.Apply stateA).g_Conf.PresetIndex = stateA.g_Conf.PresetIndex
        ∧ (SysConfigDialog.Apply stateA).g_Conf.EnablePresets = stateA.g_Conf.EnablePresets)
    ∧ ((SysConfigDialog.Apply stateA).g_Conf.otherFields = frameA.pendingPresetGoverned) :=
  ⟨(apply_reads_last_preview stateA 3 false).1,
   (apply_reads_last_preview stateA 3 false).2.1,
   (apply_reads_last_preview stateA 3 false).2.2.1 rfl rfl,
   (apply_reads_last_preview stateA 3 false).2.2.2 frameA rfl⟩

/-- C4 counterexample: with the store holding `EnablePresets = false`
(`stateB`), `Cancel` delivers the store to the main-menu surface as-is,
so the snapshot the menu receives has enablement `false` — the claim that
`Cancel` forces the enablement flag to `true` fails. -/
theorem cancel_enable_not_forced_cex :
    (menuReceived (SysConfigDialog.Cancel stateB)).map (fun r => r.1.EnablePresets)
      = some false := by decide

/-- C4 (amended): `Cancel` never writes the store and, when a main frame
exists, re-broadcasts the current unmodified store (not a speculative
snapshot) to the main-menu surface with the preset apply flags; the
delivered snapshot's enablement flag equals the store's `presetsEnabled`
(it is not forced to `true`).  In particular, if the store holds
`(presetIndex = 1, presetsEnabled = true)`, the menu receives a snapshot
of `(1, true)` whose enablement is true. -/
theorem cancel_rebroadcasts_store (s : SysState) (f : MainFrame)
    (hf : s.mainFrame = some f) :
    (SysConfigDialog.Cancel s).g_Conf = s.g_Conf
    ∧ (SysConfigDialog.Cancel s).mainFrame
        = some (f.ApplyConfigToGui s.g_Conf
            (APPLY_FLAG_FROM_PRESET ||| APPLY_FLAG_MANUALLY_PROPAGATE))
    ∧ menuReceived (SysConfigDialog.Cancel s)
        = some (s.g_Conf, APPLY_FLAG_FROM_PRESET ||| APPLY_FLAG_MANUALLY_PROPAGATE) := by
  unfold SysConfigDialog.Cancel menuReceived
  rw [hf]
  exact ⟨rfl, rfl, rfl⟩

/-- Witness for C4's amended claim at the spec's §8 scenario state: store
`(1, true)`, so the menu receives exactly `(1, true)` with enablement
true. -/
theorem cancel_rebroadcasts_store_witness :
    (SysConfigDialog.Cancel stateA).g_Conf = stateA.g_Conf
    ∧ (SysConfigDialog.Cancel stateA).mainFrame
        = some (frameA.ApplyConfigToGui stateA.g_Conf
            (APPLY_FLAG_FROM_PRESET ||| APPLY_FLAG_MANUALLY_PROPAGATE))
    ∧ menuReceived (SysConfigDialog.Cancel stateA)
        = some (stateA.g_Conf, APPLY_FLAG_FROM_PRESET ||| APPLY_FLAG_MANUALLY_PROPAGATE) :=
  cancel_rebroadcasts_store stateA frameA rfl

theorem panelUpdate_pointwise_idem (c : AppConfig) (fl : Nat) (a : Panel)
    (ha : (if a.IsSpecificConfig then a.ApplyConfigToGui c fl else a).IsSpecificConfig = true) :
    (if a.IsSpecificConfig then a.ApplyConfigToGui c fl else a).ApplyConfigToGui c fl
      = if a.IsSpecificConfig then a.ApplyConfigToGui c fl else a := by
  cases h : a.IsSpecificConfig <;> simp [Panel.ApplyConfigToGui, h] at ha ⊢

/-- C7: `previewPreset` is idempotent — a second call with identical
arguments (and no intervening store mutation) reproduces the first call's
entire observable state, so both calls produce identical panel-broadcast
and menu-broadcast snapshots. -/
theorem preview_idempotent (s : SysState) (i : Int) (e : Bool) :
    SysConfigDialog.previewPreset (SysConfigDialog.previewPreset s i e) i e
      = SysConfigDialog.previewPreset s i e := by
  obtain ⟨conf, lb, mf, sl, ck⟩ := s
  cases lb with
  | none => rfl
  | some pages =>
    cases mf with
    | none =>
      simp only [SysConfigDialog.previewPreset, SysConfigDialog.Presets_Toggled,
        SysConfigDialog.UpdateGuiForPreset]
      simp
      intro a _ ha
      exact panelUpdate_pointwise_idem _ _ a ha
    | some f =>
      simp only [SysConfigDialog.previewPreset, SysConfigDialog.Presets_Toggled,
        SysConfigDialog.UpdateGuiForPreset]
      simp [MainFrame.ApplyConfigToGui]
      intro a _ ha
      exact panelUpdate_pointwise_idem _ _ a ha

/-- C8: the store's `PresetIndex` invariant `0 ≤ PresetIndex ≤
GetMaxPresetIndex`.  Every value `Apply` writes into
`g_Conf.PresetIndex` comes from the slider, which is constructed with
range `[0, AppConfig.GetMaxPresetIndex]`, so under the slider's range
bound the commit preserves the invariant; and `AddPresetsControl` loads
the slider from a store satisfying the invariant, keeping the slider in
range. -/
theorem apply_preserves_index_bound (s : SysState)
    (h0 : 0 ≤ s.m_slider_presets) (h1 : s.m_slider_presets ≤ AppConfig.GetMaxPresetIndex) :
    (0 ≤ (SysConfigDialog.Apply s).g_Conf.PresetIndex
      ∧ (SysConfigDialog.Apply s).g_Conf.PresetIndex ≤ AppConfig.GetMaxPresetIndex)
    ∧ (0 ≤ s.g_Conf.PresetIndex → s.g_Conf.PresetIndex ≤ AppConfig.GetMaxPresetIndex →
        0 ≤ (SysConfigDialog.AddPresetsControl s).m_slider_presets
        ∧ (SysConfigDialog.AddPresetsControl s).m_slider_presets
            ≤ AppConfig.GetMaxPresetIndex) := by
  rw [SysConfigDialog.Apply_PresetIndex]
  exact ⟨⟨h0, h1⟩, fun a b => ⟨a, b⟩⟩

/-- Witness for C8 at a concrete state with the slider at 1. -/
theorem apply_preserves_index_bound_witness :
    (0 ≤ (SysConfigDialog.Apply stateA).g_Conf.PresetIndex
      ∧ (SysConfigDialog.Apply stateA).g_Conf.PresetIndex ≤ AppConfig.GetMaxPresetIndex)
    ∧ (0 ≤ (SysConfigDialog.AddPresetsControl stateA).m_slider_presets
      ∧ (SysConfigDialog.AddPresetsControl stateA).m_slider_presets
          ≤ AppConfig.GetMaxPresetIndex) :=
  ⟨(apply_preserves_index_bound stateA (by decide) (by decide)).1,
   (apply_preserves_index_bound stateA (by decide) (by decide)).2 (by decide) (by decide)⟩

/-- C9 counterexample: in `stateC` the main frame's pending
preset-governed state (7) differs from the store's other fields (0), and
`Apply` — via the menu commit it triggers — overwrites the store's other
fields with it, so `Apply` does not leave every field besides
`EnablePresets` and `PresetIndex` unchanged. -/
theorem apply_two_fields_cex :
    (SysConfigDialog.Apply stateC).g_Conf.otherFields = 7
    ∧ stateC.g_Conf.otherFields = 0 := by decide

/-- C9 (amended): `Apply`'s own direct writes touch exactly the two
fields `EnablePresets` (from the checkbox) and `PresetIndex` (from the
slider); when no main frame exists every other field of `g_Conf` is left
unchanged, but when a main frame exists the triggered menu commit
additionally overwrites the store's preset-governed other fields with the
menu's own pending state. -/
theorem apply_direct_writes (s : SysState) :
    (SysConfigDialog.Apply s).g_Conf.EnablePresets = s.m_check_presets
    ∧ (SysConfigDialog.Apply s).g_Conf.PresetIndex = s.m_slider_presets
    ∧ (s.mainFrame = none →
        (SysConfigDialog.Apply s).g_Conf.otherFields = s.g_Conf.otherFields)
    ∧ (∀ f, s.mainFrame = some f →
        (SysConfigDialog.Apply s).g_Conf.otherFields = f.pendingPresetGoverned) := by
  refine ⟨SysConfigDialog.Apply_EnablePresets s, SysConfigDialog.Apply_PresetIndex s,
    fun h => ?_, fun f hf => ?_⟩
  · unfold SysConfigDialog.Apply
    rw [h]
  · unfold SysConfigDialog.Apply
    rw [hf]
    rfl

/-- Witness for C9's amended claim: with no main frame (`stateD`) the
other fields survive `Apply`; with a divergent main frame (`stateC`) the
menu's pending state lands in the store. -/
theorem apply_direct_writes_witness :
    ((SysConfigDialog.Apply stateD).g_Conf.EnablePresets = stateD.m_check_presets
      ∧ (SysConfigDialog.Apply stateD).g_Conf.otherFields = stateD.g_Conf.otherFields)
    ∧ (SysConfigDialog.Apply stateC).g_Conf.otherFields = frameB.pendingPresetGoverned :=
  ⟨⟨(apply_direct_writes stateD).1, (apply_direct_writes stateD).2.2.1 rfl⟩,
   (apply_direct_writes stateC).2.2.2 frameB rfl⟩

/-- C10: with a null `m_listbook`, `UpdateGuiForPreset` returns
immediately for every input, changing nothing (so neither the panel nor
the menu broadcast happens); with no main frame, `Apply` performs only
its two store writes (no menu interaction) and `Cancel` does nothing at
all — no operation touches a missing collaborator. -/
theorem null_collaborators_safe (s : SysState) (i : Int) (e : Bool) :
    (s.m_listbook = none → SysConfigDialog.UpdateGuiForPreset s i e = s)
    ∧ (s.mainFrame = none → SysConfigDialog.Apply s
        = { s with g_Conf := { s.g_Conf with
              EnablePresets := s.m_check_presets, PresetIndex := s.m_slider_presets } })
    ∧ (s.mainFrame = none → SysConfigDialog.Cancel s = s) := by
  obtain ⟨conf, lb, mf, sl, ck⟩ := s
  refine ⟨fun h => ?_, fun h => ?_, fun h => ?_⟩ <;> (subst h; rfl)

/-- Witness for C10 at a concrete state with both collaborators null. -/
theorem null_collaborators_safe_witness :
    SysConfigDialog.UpdateGuiForPreset stateE 3 false = stateE
    ∧ SysConfigDialog.Apply stateE
        = { stateE with g_Conf := { stateE.g_Conf with
              EnablePresets := stateE.m_check_presets,
              PresetIndex := stateE.m_slider_presets } }
    ∧ SysConfigDialog.Cancel stateE = stateE :=
  ⟨(null_collaborators_safe stateE 3 false).1 rfl,
   (null_collaborators_safe stateE 3 false).2.1 rfl,
   (null_collaborators_safe stateE 3 false).2.2 rfl⟩
